import Mathlib

/-!
Shallow embedding of the multi-tool chatbot in src/app.py.

Strings are modelled over their character lists; Python string methods
(lower, title, strip, split, substring membership) are translated for the
ASCII fragment they are used on.  The external collaborators of the program
-- the weather HTTP provider, the generative-language-model call and the
system clock -- are parameters of the embedding, so every theorem about
the orchestrator quantifies over them.  Stateless helpers keep the names
of the Python functions they translate.
-/

/-- Python is a word character for the regex class used in app.py
(letters, digits, underscore; ASCII fragment). -/
def isWordChar (c : Char) : Bool :=
  c.isAlphanum || c == '_'

/-- Python str.lower, ASCII fragment. -/
def pyLower (s : String) : String :=
  ⟨s.data.map Char.toLower⟩

/-- re.sub applied in extract_city_from_question: delete every character
that is neither a word character nor whitespace. -/
def stripPunct (s : String) : String :=
  ⟨s.data.filter (fun c => isWordChar c || c.isWhitespace)⟩

/-- re.sub applied per word in the fallback scan: delete every character
that is not a word character. -/
def stripNonWord (s : String) : String :=
  ⟨s.data.filter isWordChar⟩

/-- Python str.strip: drop whitespace from both ends. -/
def pyStrip (s : String) : String :=
  ⟨((s.data.dropWhile Char.isWhitespace).reverse.dropWhile Char.isWhitespace).reverse⟩

/-- Helper for Python str.split with no separator: accumulate the current
word (reversed) while walking the characters. -/
def splitWsAux : List Char → List Char → List String
  | [], acc => if acc.isEmpty then [] else [⟨acc.reverse⟩]
  | c :: cs, acc =>
    if c.isWhitespace then
      if acc.isEmpty then splitWsAux cs [] else ⟨acc.reverse⟩ :: splitWsAux cs []
    else splitWsAux cs (c :: acc)

/-- Python str.split with no separator: split on whitespace runs,
discarding empty tokens. -/
def splitWs (s : String) : List String :=
  splitWsAux s.data []

/-- Helper for Python str.title: the flag records whether the previous
character was cased (a letter, in the ASCII fragment). -/
def titleAux : Bool → List Char → List Char
  | _, [] => []
  | prevCased, c :: cs =>
    if c.isAlpha then
      (if prevCased then c.toLower else c.toUpper) :: titleAux true cs
    else
      c :: titleAux false cs

/-- Python str.title: uppercase the first letter of every letter run,
lowercase the rest of the run. -/
def pythonTitle (s : String) : String :=
  ⟨titleAux false s.data⟩

/-- Python sep.join for the separator of one space, as used on the city
words. -/
def joinSpace : List String → String
  | [] => ""
  | [w] => w
  | w :: ws => w ++ " " ++ joinSpace ws

/-- Boolean test that the needle list is a prefix of the hay list. -/
def listPrefixMatch : List Char → List Char → Bool
  | [], _ => true
  | _ :: _, [] => false
  | a :: as, b :: bs => a == b && listPrefixMatch as bs

/-- Boolean test that the needle occurs contiguously in the hay. -/
def isSubstringOf (needle : List Char) : List Char → Bool
  | [] => needle.isEmpty
  | c :: rest => listPrefixMatch needle (c :: rest) || isSubstringOf needle rest

/-- Python substring membership, the binary operator used by
detect_intent on the lowered question text. -/
def strContains (hay needle : String) : Bool :=
  isSubstringOf needle.data hay.data

/-- Keyword list tested first by detect_intent (app.py line 70). -/
def weather_keywords : List String :=
  ["weather", "temperature", "rain", "sunny", "cloudy"]

/-- Keyword list tested second by detect_intent (app.py line 72). -/
def time_keywords : List String :=
  ["time", "date", "today", "what\x27s the time"]

/-- detect_intent (app.py lines 66-75): lower the question, return the
weather tag when a weather keyword is a substring, else the time tag when
a time keyword is a substring, else the general tag. -/
def detect_intent (question : String) : String :=
  if weather_keywords.any (fun word => strContains (pyLower question) word) then
    "weather"
  else if time_keywords.any (fun word => strContains (pyLower question) word) then
    "time"
  else
    "general"

/-- Trigger list of extract_city_from_question (app.py line 86). -/
def trigger_words : List String :=
  ["in", "for", "at"]

/-- The trigger loop of extract_city_from_question (app.py lines 88-97):
walk the trigger list; at the first trigger that is a member of the
cleaned word list, when at least one word follows its first occurrence,
return the title-cased space-join of all following words; otherwise keep
walking.  The ValueError handler of the source is unreachable because the
index call is guarded by the membership test, so it has no counterpart. -/
def firstTriggerResult (ts : List String) (ws : List String) : Option String :=
  match ts with
  | [] => none
  | t :: rest =>
    if ws.contains t then
      if ws.findIdx (fun w => w == t) + 1 < ws.length then
        some (pythonTitle (joinSpace (ws.drop (ws.findIdx (fun w => w == t) + 1))))
      else
        firstTriggerResult rest ws
    else
      firstTriggerResult rest ws

/-- The fallback scan of extract_city_from_question (app.py lines
101-107): over the whitespace tokens of the original question, return the
first punctuation-stripped token that is nonempty, starts with an
uppercase letter and is longer than two characters. -/
def fallbackCity : List String → Option String
  | [] => none
  | w :: ws =>
    if !(stripNonWord w).data.isEmpty
        && (match (stripNonWord w).data with
            | c :: _ => c.isUpper
            | [] => false)
        && decide (2 < (stripNonWord w).length) then
      some (stripNonWord w)
    else
      fallbackCity ws

/-- The cleaned word list of extract_city_from_question (app.py lines
82-83): lowercase, strip punctuation, split on whitespace. -/
def cleanWords (question : String) : List String :=
  splitWs (stripPunct (pyLower question))

/-- extract_city_from_question (app.py lines 77-109): try the trigger
loop on the cleaned words, then the capitalization fallback on the
original words, else no city. -/
def extract_city_from_question (question : String) : Option String :=
  match firstTriggerResult trigger_words (cleanWords question) with
  | some city => some city
  | none => fallbackCity (splitWs question)

/-- Python exceptions that the weather code can raise while reading the
decoded JSON body. -/
inductive PyExc where
  | keyError (k : String)
  | keyErrorNat (n : Nat)
  | indexError
  | typeError
  | attributeError
deriving DecidableEq

/-- Decoded JSON values, as Python represents a response body.  Numbers
are modelled as integers; no claim depends on numeric rendering. -/
inductive JVal where
  | null
  | jbool (b : Bool)
  | num (n : Int)
  | str (s : String)
  | arr (elems : List JVal)
  | obj (fields : List (String × JVal))

/-- Python dict/str subscription by a string key: a dict returns the
binding or raises KeyError; a one-character string slice of a string is
never taken by a string key, so strings, lists and scalars raise
TypeError. -/
def jGet (v : JVal) (k : String) : Except PyExc JVal :=
  match v with
  | .obj fields =>
    match fields.lookup k with
    | some x => .ok x
    | none => .error (.keyError k)
  | _ => .error .typeError

/-- Python subscription by a natural-number index: a list returns the
element or raises IndexError; a string returns the one-character string
or raises IndexError; a dict raises KeyError for the missing integer key;
scalars raise TypeError. -/
def jIndexNat (v : JVal) (i : Nat) : Except PyExc JVal :=
  match v with
  | .arr xs =>
    match xs.get? i with
    | some x => .ok x
    | none => .error .indexError
  | .str s =>
    match s.data.get? i with
    | some c => .ok (.str ⟨[c]⟩)
    | none => .error .indexError
  | .obj _ => .error (.keyErrorNat i)
  | _ => .error .typeError

/-- The title() method call on a JSON value: defined on strings, raises
AttributeError on every other value. -/
def jTitle (v : JVal) : Except PyExc String :=
  match v with
  | .str s => .ok (pythonTitle s)
  | _ => .error .attributeError

/-- The weather_info dict built by get_weather (app.py lines 38-46).
Values other than the title-cased description keep whatever JSON value
the body supplied, as the Python dict does. -/
structure WeatherInfo where
  city : JVal
  country : JVal
  temperature : JVal
  feels_like : JVal
  humidity : JVal
  description : String
  wind_speed : JVal

/-- The field reads of app.py lines 38-46 in evaluation order; the first
failing subscription determines the raised exception, as in Python. -/
def parse_weather_info (data : JVal) : Except PyExc WeatherInfo := do
  let city ← jGet data "name"
  let sys ← jGet data "sys"
  let country ← jGet sys "country"
  let main ← jGet data "main"
  let temperature ← jGet main "temp"
  let feels_like ← jGet main "feels_like"
  let humidity ← jGet main "humidity"
  let weatherList ← jGet data "weather"
  let firstCond ← jIndexNat weatherList 0
  let descVal ← jGet firstCond "description"
  let description ← jTitle descVal
  let wind ← jGet data "wind"
  let wind_speed ← jGet wind "speed"
  .ok { city, country, temperature, feels_like, humidity, description, wind_speed }

/-- Outcome of the single HTTP GET issued by get_weather: either a
response with a status code and a decoded JSON body, or a network-level
failure carrying the exception text. -/
inductive FetchOutcome where
  | response (status : Nat) (body : JVal)
  | networkError (m : String)

/-- Result of get_weather when no exception escapes: the weather_info
dict on success, a human-readable error string otherwise. -/
inductive GetWeatherResult where
  | info (w : WeatherInfo)
  | msg (s : String)

/-- Fixed message for HTTP 401 (app.py line 52). -/
def invalid_key_msg : String :=
  "❌ Weather API key is invalid or not activated yet. Please check your API key."

/-- Message for HTTP 404 (app.py line 54), embedding the original,
untransformed city_name argument. -/
def city_not_found_msg (city_name : String) : String :=
  "❌ City \x27" ++ city_name ++ "\x27 not found. Please check the spelling."

/-- Message for other HTTP error statuses (app.py line 56).  The source
interpolates str(e) of the raised HTTPError; the model abbreviates that
library text to the status code, which no claim inspects. -/
def http_error_msg (status : Nat) : String :=
  "❌ Weather API error: HTTP " ++ toString status

/-- Message for network-level failures (app.py line 58). -/
def network_error_msg (m : String) : String :=
  "❌ Network error fetching weather data: " ++ m

/-- Message for KeyError during body parsing (app.py line 60); the detail
is Python str() of the KeyError, which wraps a string key in quotes. -/
def parse_error_msg (detail : String) : String :=
  "❌ Error parsing weather data: " ++ detail

/-- get_weather (app.py lines 19-60): strip the city, issue the GET,
raise-for-status maps 4xx/5xx to the three HTTP messages, network errors
to the network message, and a KeyError while reading the body to the
parse message.  Any other exception raised while reading the body
(IndexError, TypeError, AttributeError) is not caught and propagates as
the error of the outer Except. -/
def get_weather (city_name : String) (fetch : String → FetchOutcome) :
    Except PyExc GetWeatherResult :=
  match fetch (pyStrip city_name) with
  | .networkError m => .ok (.msg (network_error_msg m))
  | .response status body =>
    if 400 ≤ status ∧ status ≤ 599 then
      if status = 401 then .ok (.msg invalid_key_msg)
      else if status = 404 then .ok (.msg (city_not_found_msg city_name))
      else .ok (.msg (http_error_msg status))
    else
      match parse_weather_info body with
      | .ok w => .ok (.info w)
      | .error (.keyError k) => .ok (.msg (parse_error_msg ("\x27" ++ k ++ "\x27")))
      | .error (.keyErrorNat n) => .ok (.msg (parse_error_msg (toString n)))
      | .error e => .error e

/-- Wall-clock reading supplied by the host to datetime.now(). -/
structure PyDateTime where
  year : Nat
  month : Nat
  day : Nat
  hour : Nat
  minute : Nat
  second : Nat

/-- Two-digit zero padding of strftime numeric fields. -/
def pad2 (n : Nat) : String :=
  if n < 10 then "0" ++ toString n else toString n

/-- Four-digit zero padding of the strftime year field. -/
def pad4 (n : Nat) : String :=
  if n < 10 then "000" ++ toString n
  else if n < 100 then "00" ++ toString n
  else if n < 1000 then "0" ++ toString n
  else toString n

/-- The date part of the strftime format of get_current_time. -/
def dateStr (d : PyDateTime) : String :=
  pad4 d.year ++ "-" ++ pad2 d.month ++ "-" ++ pad2 d.day

/-- The time-of-day part of the strftime format of get_current_time. -/
def timeOfDayStr (d : PyDateTime) : String :=
  pad2 d.hour ++ ":" ++ pad2 d.minute ++ ":" ++ pad2 d.second

/-- get_current_time (app.py lines 62-64) applied to the clock value the
host returns from datetime.now(). -/
def get_current_time (now : PyDateTime) : String :=
  dateStr now ++ " " ++ timeOfDayStr now

/-- External collaborators of ask_ai_with_tools: the weather provider
(queried with the stripped city), the generative-language-model call, and
the clock. -/
structure ToolEnv where
  fetch : String → FetchOutcome
  llm : String → String
  now : PyDateTime

/-- Observable outbound calls of one orchestrator invocation. -/
inductive Effect where
  | httpGet (city : String)
  | llmCall (prompt : String)
deriving DecidableEq

/-- Static clarification returned when no city is extracted (app.py line
118). -/
def clarify_city_msg : String :=
  "I can help you with weather! Please specify a city. For example: \x27What\x27s the weather in London?\x27"

/-- Rendering of a JSON value inside an f-string, Python str().
Container rendering is abbreviated; well-formed weather bodies only put
strings and numbers into the context. -/
def jRender : JVal → String
  | .null => "None"
  | .jbool b => if b then "True" else "False"
  | .num n => toString n
  | .str s => s
  | .arr _ => "[...]"
  | .obj _ => "\x7b...\x7d"

/-- The triple-quoted weather context f-string (app.py lines 124-132),
with its leading newline and twelve-space indentation. -/
def weather_context (w : WeatherInfo) (question : String) : String :=
  "\n            Current weather data for " ++ jRender w.city ++ ", "
  ++ jRender w.country ++ ":\n            - Temperature: "
  ++ jRender w.temperature ++ "°C (feels like " ++ jRender w.feels_like
  ++ "°C)\n            - Condition: " ++ w.description
  ++ "\n            - Humidity: " ++ jRender w.humidity
  ++ "%\n            - Wind speed: " ++ jRender w.wind_speed
  ++ " m/s\n            \n            Present this weather information in a conversational way to answer the user\x27s question: \""
  ++ question ++ "\"\n            "

/-- The time context f-string (app.py line 141). -/
def time_context (current_time question : String) : String :=
  "Current date and time: " ++ current_time
  ++ ". Answer the user\x27s question: \x27" ++ question ++ "\x27"

/-- ask_ai_with_tools (app.py lines 111-148), instrumented with the list
of outbound calls it makes.  A Python falsy city is none or the empty
string; the weather HTTP call happens exactly when get_weather runs, and
the language-model call exactly when model.generate_content runs.  An
exception escaping get_weather escapes this function too. -/
def ask_ai_with_tools (env : ToolEnv) (question : String) :
    Except PyExc (String × List Effect) :=
  if detect_intent question = "weather" then
    match extract_city_from_question question with
    | none => .ok (clarify_city_msg, [])
    | some city =>
      if city = "" then .ok (clarify_city_msg, [])
      else
        match get_weather city env.fetch with
        | .error e => .error e
        | .ok (.info w) =>
          .ok (env.llm (weather_context w question),
               [.httpGet (pyStrip city), .llmCall (weather_context w question)])
        | .ok (.msg s) => .ok (s, [.httpGet (pyStrip city)])
  else if detect_intent question = "time" then
    .ok (env.llm (time_context (get_current_time env.now) question),
         [.llmCall (time_context (get_current_time env.now) question)])
  else
    .ok (env.llm question, [.llmCall question])

/-- Observable startup actions of the interactive entry point, before the
read-line loop is entered. -/
inductive StartupEvent where
  | banner
  | keyWarning
  | keyLoaded
  | smokeTest (question : String)
  | enterLoop
deriving DecidableEq

/-- The entry-point prologue (app.py lines 151-183): banner, then either
the missing-key warning (key absent) or the loaded-key line followed by
the weather smoke test (key present), then the time smoke test, then the
interactive loop. -/
def mainStartup (weatherKeyPresent : Bool) : List StartupEvent :=
  [.banner]
  ++ (if weatherKeyPresent then
        [.keyLoaded, .smokeTest "Weather in London"]
      else
        [.keyWarning])
  ++ [.smokeTest "What time is it", .enterLoop]

theorem listPrefixMatch_iff (n h : List Char) :
    listPrefixMatch n h = true ↔ n <+: h := by
  induction n generalizing h with
  | nil => simp [listPrefixMatch, List.nil_prefix]
  | cons a as ih =>
    cases h with
    | nil => simp [listPrefixMatch]
    | cons b bs =>
      simp [listPrefixMatch, List.cons_prefix_cons, ih]

theorem isSubstringOf_iff (n h : List Char) :
    isSubstringOf n h = true ↔ n <:+: h := by
  induction h with
  | nil =>
    cases n <;> simp [isSubstringOf, List.infix_nil]
  | cons c rest ih =>
    simp [isSubstringOf, List.infix_cons_iff, listPrefixMatch_iff, ih]

theorem strContains_iff (hay needle : String) :
    strContains hay needle = true ↔ needle.data <:+: hay.data :=
  isSubstringOf_iff needle.data hay.data

/-- Claim C2: detect_intent is a deterministic total function on strings:
when the lowercased text contains a weather keyword as a substring it
returns the weather tag; otherwise, when it contains a time keyword, the
time tag; otherwise (the empty string included) the general tag. -/
theorem detect_intent_total_classification (q : String) :
    detect_intent q =
      if ∃ w ∈ weather_keywords, w.data <:+: (pyLower q).data then "weather"
      else if ∃ w ∈ time_keywords, w.data <:+: (pyLower q).data then "time"
      else "general" := by
  unfold detect_intent
  have hw : (weather_keywords.any fun word => strContains (pyLower q) word) = true
      ↔ ∃ w ∈ weather_keywords, w.data <:+: (pyLower q).data := by
    simp [List.any_eq_true, strContains_iff]
  have ht : (time_keywords.any fun word => strContains (pyLower q) word) = true
      ↔ ∃ w ∈ time_keywords, w.data <:+: (pyLower q).data := by
    simp [List.any_eq_true, strContains_iff]
  by_cases h1 : ∃ w ∈ weather_keywords, w.data <:+: (pyLower q).data
  · rw [if_pos h1, if_pos (hw.mpr h1)]
  · rw [if_neg h1, if_neg (fun hc => h1 (hw.mp hc))]
    by_cases h2 : ∃ w ∈ time_keywords, w.data <:+: (pyLower q).data
    · rw [if_pos h2, if_pos (ht.mpr h2)]
    · rw [if_neg h2, if_neg (fun hc => h2 (ht.mp hc))]

theorem firstTriggerResult_of_find (ts ws : List String) (t : String)
    (hf : ts.find? (fun x => ws.contains x) = some t)
    (hlt : ws.findIdx (fun w => w == t) + 1 < ws.length) :
    firstTriggerResult ts ws =
      some (pythonTitle (joinSpace (ws.drop (ws.findIdx (fun w => w == t) + 1)))) := by
  induction ts with
  | nil => simp [List.find?] at hf
  | cons a rest ih =>
    by_cases hc : ws.contains a = true
    · have ha : t = a := by
        rw [List.find?] at hf
        rw [hc] at hf
        exact (Option.some.inj hf).symm
      subst ha
      unfold firstTriggerResult
      rw [if_pos hc, if_pos hlt]
    · have hf' : rest.find? (fun x => ws.contains x) = some t := by
        rw [List.find?] at hf
        rw [Bool.of_not_eq_true hc] at hf
        exact hf
      unfold firstTriggerResult
      rw [if_neg (fun hcc => hc hcc)]
      exact ih hf'

/-- Claim C1: when the cleaned word list of the question contains at
least one trigger word, the extractor resolves via the first trigger in
the fixed list order that is present (list order, not sentence order);
provided at least one word follows that trigger, the result is the
title-cased space-join of all words after its first occurrence. -/
theorem extract_city_trigger_list_order (q t : String)
    (hf : trigger_words.find? (fun x => (cleanWords q).contains x) = some t)
    (hlt : (cleanWords q).findIdx (fun w => w == t) + 1 < (cleanWords q).length) :
    extract_city_from_question q =
      some (pythonTitle (joinSpace
        ((cleanWords q).drop ((cleanWords q).findIdx (fun w => w == t) + 1)))) := by
  unfold extract_city_from_question
  rw [firstTriggerResult_of_find trigger_words (cleanWords q) t hf hlt]

/-- Witness for C1 at a question where the trigger listed later in the
sentence but earlier in the list wins: the word list of
"weather for paris in london" contains both triggers, the first present
trigger in list order is the one spelled i-n, one word follows it, and
the extractor returns the title-cased join of what follows it. -/
theorem extract_city_trigger_list_order_witness :
    trigger_words.find? (fun x => (cleanWords "weather for paris in london").contains x)
        = some "in"
    ∧ (cleanWords "weather for paris in london").findIdx (fun w => w == "in") + 1
        < (cleanWords "weather for paris in london").length
    ∧ extract_city_from_question "weather for paris in london" =
        some (pythonTitle (joinSpace
          ((cleanWords "weather for paris in london").drop
            ((cleanWords "weather for paris in london").findIdx (fun w => w == "in") + 1)))) :=
  ⟨by decide, by decide,
    extract_city_trigger_list_order "weather for paris in london" "in"
      (by decide) (by decide)⟩

theorem firstTriggerResult_of_no_trigger (ts ws : List String)
    (h : ∀ t ∈ ts, ws.contains t = false) :
    firstTriggerResult ts ws = none := by
  induction ts with
  | nil => rfl
  | cons a rest ih =>
    unfold firstTriggerResult
    rw [h a (List.mem_cons_self a rest)]
    simp only [Bool.false_eq_true, if_false]
    exact ih (fun t ht => h t (List.mem_cons_of_mem a ht))

theorem fallback_cond_eq (w : String) :
    (!(stripNonWord w).data.isEmpty
        && (match (stripNonWord w).data with
            | c :: _ => c.isUpper
            | [] => false)
        && decide (2 < (stripNonWord w).length))
    = (decide (2 < (stripNonWord w).length)
        && (match (stripNonWord w).data with
            | c :: _ => c.isUpper
            | [] => false)) := by
  by_cases hlen : 2 < (stripNonWord w).length
  · have hd : (stripNonWord w).data.isEmpty = false := by
      rcases he : (stripNonWord w).data with _ | ⟨c, cs⟩
      · rw [String.length, he] at hlen
        simp at hlen
      · rfl
    rw [decide_eq_true hlen, hd]
    cases hm : (match (stripNonWord w).data with
        | c :: _ => c.isUpper
        | [] => false) <;> simp
  · rw [decide_eq_false hlen]
    simp

theorem fallbackCity_eq_find (ws : List String) :
    fallbackCity ws =
      (ws.find? (fun w =>
          decide (2 < (stripNonWord w).length)
          && (match (stripNonWord w).data with
              | c :: _ => c.isUpper
              | [] => false))).map (fun w => stripNonWord w) := by
  induction ws with
  | nil => rfl
  | cons w rest ih =>
    unfold fallbackCity
    rw [fallback_cond_eq w]
    cases hc : (decide (2 < (stripNonWord w).length)
        && (match (stripNonWord w).data with
            | c :: _ => c.isUpper
            | [] => false)) with
    | true => simp [List.find?, hc]
    | false => simp [List.find?, hc, ih]

/-- Claim C8: when the cleaned word list contains none of the trigger
words, the extractor returns the punctuation-stripped form of the first
whitespace token of the original question that is longer than two
characters and starts with an uppercase letter, and absence when no such
token exists. -/
theorem extract_city_fallback_capitalized (q : String)
    (hno : ∀ t ∈ trigger_words, (cleanWords q).contains t = false) :
    extract_city_from_question q =
      ((splitWs q).find? (fun w =>
          decide (2 < (stripNonWord w).length)
          && (match (stripNonWord w).data with
              | c :: _ => c.isUpper
              | [] => false))).map (fun w => stripNonWord w) := by
  unfold extract_city_from_question
  rw [firstTriggerResult_of_no_trigger trigger_words (cleanWords q) hno]
  exact fallbackCity_eq_find (splitWs q)

/-- Witness for C8: the question "how is Berlin looking" has no trigger
word in its cleaned word list, and the extractor returns the first
capitalized token longer than two characters. -/
theorem extract_city_fallback_capitalized_witness :
    (∀ t ∈ trigger_words, (cleanWords "how is Berlin looking").contains t = false)
    ∧ extract_city_from_question "how is Berlin looking" =
        ((splitWs "how is Berlin looking").find? (fun w =>
            decide (2 < (stripNonWord w).length)
            && (match (stripNonWord w).data with
                | c :: _ => c.isUpper
                | [] => false))).map (fun w => stripNonWord w)
    ∧ extract_city_from_question "how is Berlin looking" = some "Berlin" :=
  ⟨by decide, extract_city_fallback_capitalized "how is Berlin looking" (by decide),
    by decide⟩

/-- Claim C10: when the first occurrence of a trigger word in the cleaned
word list is the final word, the trigger loop does not return absence for
that trigger but silently falls through to the remaining triggers; hence
the question "What is the weather in" reaches the capitalization fallback
and yields its first capitalized token rather than absence. -/
theorem trigger_last_word_falls_through :
    (∀ (t : String) (rest ws : List String),
        ws.contains t = true →
        ws.findIdx (fun w => w == t) + 1 = ws.length →
        firstTriggerResult (t :: rest) ws = firstTriggerResult rest ws)
    ∧ extract_city_from_question "What is the weather in" = some "What" := by
  constructor
  · intro t rest ws hc hlast
    unfold firstTriggerResult
    rw [if_pos hc, if_neg (by omega)]
    rw [firstTriggerResult.eq_def]
  · decide

/-- Witness for C10: in the cleaned word list of "What is the weather in"
the trigger spelled i-n occurs only as the final word, so the full
trigger loop equals the loop over the remaining triggers there. -/
theorem trigger_last_word_falls_through_witness :
    (cleanWords "What is the weather in").contains "in" = true
    ∧ (cleanWords "What is the weather in").findIdx (fun w => w == "in") + 1
        = (cleanWords "What is the weather in").length
    ∧ firstTriggerResult ("in" :: ["for", "at"]) (cleanWords "What is the weather in")
        = firstTriggerResult ["for", "at"] (cleanWords "What is the weather in") :=
  ⟨by decide, by decide,
    trigger_last_word_falls_through.1 "in" ["for", "at"]
      (cleanWords "What is the weather in") (by decide) (by decide)⟩

/-- Claim C7: on HTTP 404 get_weather returns an error string embedding
its city_name argument character for character (neither stripped nor
title-cased by get_weather), and on HTTP 401 it returns the fixed
invalid-API-key message, independent of the city. -/
theorem get_weather_404_embeds_city_401_fixed (city : String)
    (f404 f401 : String → FetchOutcome) (b b' : JVal)
    (h404 : f404 (pyStrip city) = .response 404 b)
    (h401 : f401 (pyStrip city) = .response 401 b') :
    get_weather city f404 = .ok (.msg (city_not_found_msg city))
    ∧ city.data <:+: (city_not_found_msg city).data
    ∧ get_weather city f401 = .ok (.msg invalid_key_msg) := by
  refine ⟨?_, ?_, ?_⟩
  · unfold get_weather
    rw [h404]
    norm_num
  · refine ⟨("❌ City \x27" : String).data,
      ("\x27 not found. Please check the spelling." : String).data, ?_⟩
    simp [city_not_found_msg, String.data_append, List.append_assoc]
  · unfold get_weather
    rw [h401]
    norm_num

/-- Witness for C7 at the unstripped, lowercase city " london ": both
providers answer with the stated statuses and get_weather answers with
the stated strings, the 404 one embedding " london " verbatim. -/
theorem get_weather_404_embeds_city_401_fixed_witness :
    ((fun _ => FetchOutcome.response 404 .null) : String → FetchOutcome)
        (pyStrip " london ") = .response 404 .null
    ∧ ((fun _ => FetchOutcome.response 401 .null) : String → FetchOutcome)
        (pyStrip " london ") = .response 401 .null
    ∧ get_weather " london " (fun _ => .response 404 .null)
        = .ok (.msg (city_not_found_msg " london "))
    ∧ (" london " : String).data <:+: (city_not_found_msg " london ").data
    ∧ get_weather " london " (fun _ => .response 401 .null)
        = .ok (.msg invalid_key_msg) := by
  have h := get_weather_404_embeds_city_401_fixed " london "
    (fun _ => .response 404 .null) (fun _ => .response 401 .null) .null .null rfl rfl
  exact ⟨rfl, rfl, h.1, h.2.1, h.2.2⟩

/-- Concrete 200 body whose weather field is an empty array; every dict
key of the expected shape that the code reads before the first condition
is present. -/
def body0 : JVal :=
  .obj [("name", .str "London"), ("sys", .obj [("country", .str "GB")]),
        ("main", .obj [("temp", .num 15), ("feels_like", .num 14), ("humidity", .num 72)]),
        ("weather", .arr []), ("wind", .obj [("speed", .num 3)])]

/-- Counterexample to C4: a 2xx response whose body lacks the expected
first element of the weather array makes get_weather raise IndexError to
its caller instead of returning a parse-error string. -/
theorem get_weather_empty_weather_array_raises :
    get_weather "London" (fun _ => .response 200 body0) = .error .indexError := rfl

/-- Claim C4 as amended: for a 2xx response whose body reading fails with
a missing dictionary key, get_weather returns the human-readable
parse-error string; failures that are not missing dict keys (such as the
empty weather array) are not caught. -/
theorem get_weather_missing_key_parse_error (city : String)
    (fetch : String → FetchOutcome) (status : Nat) (body : JVal) (k : String)
    (hf : fetch (pyStrip city) = .response status body)
    (h2xx : 200 ≤ status ∧ status < 300)
    (hk : parse_weather_info body = .error (.keyError k)) :
    get_weather city fetch = .ok (.msg (parse_error_msg ("\x27" ++ k ++ "\x27"))) := by
  have hnot : ¬(400 ≤ status ∧ status ≤ 599) := by omega
  unfold get_weather
  rw [hf]
  simp [hnot, hk]

/-- Concrete 200 body missing the main dict key. -/
def body1 : JVal :=
  .obj [("name", .str "London"), ("sys", .obj [("country", .str "GB")])]

/-- Provider answering 200 with body1 for every query. -/
def fetch1 : String → FetchOutcome := fun _ => .response 200 body1

/-- Witness for the amended C4: with the main key missing, get_weather
returns the parse-error string naming the missing key. -/
theorem get_weather_missing_key_parse_error_witness :
    fetch1 (pyStrip "London") = .response 200 body1
    ∧ (200 ≤ 200 ∧ 200 < 300)
    ∧ parse_weather_info body1 = .error (.keyError "main")
    ∧ get_weather "London" fetch1
        = .ok (.msg (parse_error_msg ("\x27" ++ "main" ++ "\x27"))) :=
  ⟨rfl, by omega, rfl,
    get_weather_missing_key_parse_error "London" fetch1 200 body1 "main"
      rfl (by omega) rfl⟩

/-- Environment whose provider always fails at the network level and
whose model echoes its prompt; used to witness orchestrator claims. -/
def env0 : ToolEnv :=
  { fetch := fun _ => .networkError "offline"
    llm := fun p => p
    now := ⟨2026, 10, 12, 9, 30, 0⟩ }

/-- Environment whose provider always answers HTTP 404. -/
def env404 : ToolEnv :=
  { fetch := fun _ => .response 404 .null
    llm := fun p => p
    now := ⟨2026, 10, 12, 9, 30, 0⟩ }

/-- Claim C5: for a question with weather intent and no extractable city,
the orchestrator returns the static clarification and makes no outbound
call at all: the empty effect list records zero weather HTTP requests and
zero language-model calls. -/
theorem ask_no_city_clarifies (env : ToolEnv) (q : String)
    (hintent : detect_intent q = "weather")
    (hcity : extract_city_from_question q = none) :
    ask_ai_with_tools env q = .ok (clarify_city_msg, []) := by
  unfold ask_ai_with_tools
  rw [hintent]
  simp [hcity]

/-- Witness for C5 at "how is the weather": weather intent, no city, the
clarification is returned with an empty effect list. -/
theorem ask_no_city_clarifies_witness :
    detect_intent "how is the weather" = "weather"
    ∧ extract_city_from_question "how is the weather" = none
    ∧ ask_ai_with_tools env0 "how is the weather" = .ok (clarify_city_msg, []) :=
  ⟨by decide, by decide,
    ask_no_city_clarifies env0 "how is the weather" (by decide) (by decide)⟩

/-- Claim C6: for a question with weather intent and an extracted city,
when get_weather returns an error string the orchestrator returns that
string verbatim, and its effect list holds only the weather HTTP request:
no language-model call occurs on that path. -/
theorem ask_weather_error_verbatim (env : ToolEnv) (q city s : String)
    (hintent : detect_intent q = "weather")
    (hcity : extract_city_from_question q = some city)
    (hne : city ≠ "")
    (herr : get_weather city env.fetch = .ok (.msg s)) :
    ask_ai_with_tools env q = .ok (s, [.httpGet (pyStrip city)])
    ∧ ∀ p, Effect.llmCall p ∉ [Effect.httpGet (pyStrip city)] := by
  constructor
  · unfold ask_ai_with_tools
    rw [hintent]
    simp [hcity, hne, herr]
  · intro p
    simp

/-- Witness for C6 at "weather in london" against the always-404
provider: the extractor yields the title-cased city, get_weather yields
the not-found string, and the orchestrator returns it verbatim with the
single HTTP effect. -/
theorem ask_weather_error_verbatim_witness :
    detect_intent "weather in london" = "weather"
    ∧ extract_city_from_question "weather in london" = some "London"
    ∧ get_weather "London" env404.fetch = .ok (.msg (city_not_found_msg "London"))
    ∧ ask_ai_with_tools env404 "weather in london"
        = .ok (city_not_found_msg "London", [.httpGet (pyStrip "London")]) :=
  ⟨by decide, by decide, rfl,
    (ask_weather_error_verbatim env404 "weather in london" "London"
      (city_not_found_msg "London") (by decide) (by decide) (by decide) rfl).1⟩

/-- Counterexample to C9: the question "rain time" contains the time
keyword, yet the orchestrator takes the weather branch, returns the
static clarification and constructs no language-model context at all, so
no constructed context contains the current date. -/
theorem ask_time_substring_without_time_branch :
    strContains "rain time" "time" = true
    ∧ ask_ai_with_tools env0 "rain time" = .ok (clarify_city_msg, []) :=
  ⟨rfl, rfl⟩

/-- Claim C9 as amended: for every question that detect_intent classifies
as time, the orchestrator makes exactly one language-model call, the
constructed context contains the current date in the form YYYY-MM-DD
(the date prefix of the YYYY-MM-DD HH:MM:SS timestamp), and the returned
string is the model output for that context. -/
theorem ask_time_intent_context_has_date (env : ToolEnv) (q : String)
    (h : detect_intent q = "time") :
    ask_ai_with_tools env q
      = .ok (env.llm (time_context (get_current_time env.now) q),
             [.llmCall (time_context (get_current_time env.now) q)])
    ∧ (dateStr env.now).data <:+: (time_context (get_current_time env.now) q).data := by
  constructor
  · have hw : detect_intent q ≠ "weather" := by
      rw [h]
      decide
    unfold ask_ai_with_tools
    rw [if_neg hw, if_pos h]
  · refine ⟨("Current date and time: " : String).data,
      (" " ++ timeOfDayStr env.now ++ ". Answer the user\x27s question: \x27"
        ++ q ++ "\x27").data, ?_⟩
    simp [time_context, get_current_time, String.data_append, List.append_assoc]

/-- Witness for the amended C9 at "what time is it": time intent, one
language-model call, and the date prefix of the clock value occurs in
the constructed context. -/
theorem ask_time_intent_context_has_date_witness :
    detect_intent "what time is it" = "time"
    ∧ ask_ai_with_tools env0 "what time is it"
        = .ok (env0.llm (time_context (get_current_time env0.now) "what time is it"),
               [.llmCall (time_context (get_current_time env0.now) "what time is it")])
    ∧ (dateStr env0.now).data
        <:+: (time_context (get_current_time env0.now) "what time is it").data :=
  ⟨by decide,
    (ask_time_intent_context_has_date env0 "what time is it" (by decide)).1,
    (ask_time_intent_context_has_date env0 "what time is it" (by decide)).2⟩

/-- Counterexample to C3: when the weather API key is absent, the startup
prologue does not run the weather smoke test, so the two fixed smoke
tests do not both execute in every run. -/
theorem startup_weather_smoke_skipped :
    StartupEvent.smokeTest "Weather in London" ∉ mainStartup false := by
  decide

/-- Claim C3 as amended: in every run the startup prologue runs the time
smoke test and continues into the interactive loop; the weather smoke
test runs exactly when the weather API key is present, and the warning
with instructions is printed exactly when it is absent (without
terminating). -/
theorem startup_smoke_tests (keyPresent : Bool) :
    StartupEvent.smokeTest "What time is it" ∈ mainStartup keyPresent
    ∧ StartupEvent.enterLoop ∈ mainStartup keyPresent
    ∧ (StartupEvent.smokeTest "Weather in London" ∈ mainStartup keyPresent
        ↔ keyPresent = true)
    ∧ (StartupEvent.keyWarning ∈ mainStartup keyPresent ↔ keyPresent = false) := by
  cases keyPresent <;> decide
